import Mathlib

/-!
Verification development for the wake-word gating and speaker-verification
pipeline of the YouTube voice-control content script
(src/chrome-extension/content.js).

Floating-point arithmetic of the JavaScript source is modelled over the real
numbers ℝ (exact arithmetic); counters, strings and timer bookkeeping are
modelled over ℕ/ℚ/String so that concrete instances can be checked by
evaluation.  Each definition mirrors one source function; line numbers in the
doc comments refer to src/chrome-extension/content.js.
-/

namespace YTVoice

/-- Formant entry as produced by `extractFormants` (content.js 2259-2295):
a `{frequency, magnitude}` pair. -/
structure Formant where
  frequency : ℝ
  magnitude : ℝ

/-- Feature vector produced by `captureVoiceFeatures` (content.js 2183-2224).
The `transcript` and `timestamp` fields record the call's transcript argument
and the `Date.now()` call time. -/
structure VoiceFeatures where
  fundamentalFreq : ℝ
  formants : List Formant
  spectralCentroid : ℝ
  spectralRolloff : ℝ
  spectralFlux : ℝ
  spectralFlatness : ℝ
  mfcc : List ℝ
  zeroCrossingRate : ℝ
  energy : ℝ
  voicedRatio : ℝ
  harmonicRatio : ℝ
  transcript : String
  timestamp : ℕ

/-- Stored voiceprint as built by `createVoiceprint` (content.js 2448-2483). -/
structure Voiceprint where
  fundamentalFreq : ℝ
  spectralCentroid : ℝ
  spectralRolloff : ℝ
  spectralFlux : ℝ
  spectralFlatness : ℝ
  zeroCrossingRate : ℝ
  energy : ℝ
  voicedRatio : ℝ
  harmonicRatio : ℝ
  mfcc : List ℝ
  formants : List Formant
  fundamentalFreqStd : ℝ
  energyStd : ℝ
  spectralCentroidStd : ℝ
  sampleCount : ℕ
  createdAt : ℕ

/-- Gaussian similarity kernel used by the verification layers, in the clamped
form of `calculateFrequencySimilarity` (content.js 2647-2652):
`clamp(exp(-(|a-b|/tol)^2), 0, 1)`. -/
noncomputable def gaussianSimilarity (a b tol : ℝ) : ℝ :=
  max 0 (min 1 (Real.exp (-(|a - b| / tol) ^ 2)))

/-- Embedding of `calculateFrequencySimilarity` (content.js 2644-2653). -/
noncomputable def calculateFrequencySimilarity (currentF0 voiceprintF0 stdDev : ℝ) : ℝ :=
  if currentF0 = 0 ∨ voiceprintF0 = 0 then 0
  else
    let difference := |currentF0 - voiceprintF0|
    let tolerance := max (stdDev * 2) 20
    max 0 (min 1 (Real.exp (-(difference / tolerance) ^ 2)))

/-- Embedding of `calculateFormantSimilarity` (content.js 2655-2678).  The JS
indexes `formantWeights[i]`; `getD _ 0` models this for the in-domain case of
at most three formants (the source always produces exactly three). -/
noncomputable def calculateFormantSimilarity
    (currentFormants voiceprintFormants : List Formant) : ℝ :=
  if currentFormants.length ≠ voiceprintFormants.length then 0
  else
    let formantWeights : List ℝ := [0.4, 0.4, 0.2]
    let total := (List.range currentFormants.length).foldl (fun acc i =>
      let currentFreq := (currentFormants.getD i ⟨0, 0⟩).frequency
      let voiceprintFreq := (voiceprintFormants.getD i ⟨0, 0⟩).frequency
      if currentFreq = 0 ∨ voiceprintFreq = 0 then acc
      else
        let difference := |currentFreq - voiceprintFreq|
        let tolerance := voiceprintFreq * 0.15
        acc + Real.exp (-(difference / tolerance) ^ 2) * formantWeights.getD i 0) 0
    max 0 (min 1 total)

/-- Embedding of `calculateSpectralSimilarity` (content.js 2680-2702); the
accumulator pairs the running total with the `validFeatures` count. -/
noncomputable def calculateSpectralSimilarity (cf : VoiceFeatures) (vp : Voiceprint) : ℝ :=
  let spectralFeatures : List (ℝ × ℝ × ℝ) :=
    [(cf.spectralCentroid, vp.spectralCentroid, 500),
     (cf.spectralRolloff, vp.spectralRolloff, 1000),
     (cf.spectralFlux, vp.spectralFlux, 10),
     (cf.spectralFlatness, vp.spectralFlatness, 0.1)]
  let r := spectralFeatures.foldl (fun (acc : ℝ × ℕ) f =>
    if f.1 = 0 ∨ f.2.1 = 0 then acc
    else (acc.1 + Real.exp (-(|f.1 - f.2.1| / f.2.2) ^ 2), acc.2 + 1)) (0, 0)
  if r.2 > 0 then r.1 / (r.2 : ℝ) else 0

/-- Embedding of `calculateVoiceSimilarity` (content.js 2725-2744); every pair
is counted (no zero-skip in the source). -/
noncomputable def calculateVoiceSimilarity (cf : VoiceFeatures) (vp : Voiceprint) : ℝ :=
  let voiceFeatures : List (ℝ × ℝ × ℝ) :=
    [(cf.voicedRatio, vp.voicedRatio, 0.2),
     (cf.harmonicRatio, vp.harmonicRatio, 0.2),
     (cf.zeroCrossingRate, vp.zeroCrossingRate, 0.05)]
  let r := voiceFeatures.foldl (fun (acc : ℝ × ℕ) f =>
    (acc.1 + Real.exp (-(|f.1 - f.2.1| / f.2.2) ^ 2), acc.2 + 1)) (0, 0)
  if r.2 > 0 then r.1 / (r.2 : ℝ) else 0

/-- Embedding of `verifyEnergyPattern` (content.js 2914-2934).  The JS
`this.voiceprint.energyStd || 0.1` falls back to `0.1` on the falsy value `0`,
modelled by the first `if`. -/
noncomputable def verifyEnergyPattern (currentFeatures : VoiceFeatures) (vp : Voiceprint) : ℝ :=
  let currentEnergy := currentFeatures.energy
  let voiceprintEnergy := vp.energy
  let energyStd := if vp.energyStd = 0 then 0.1 else vp.energyStd
  if currentEnergy = 0 ∨ voiceprintEnergy = 0 then 0
  else
    let tolerance := max (energyStd * 2) 0.05
    let energySimilarity := Real.exp (-(|currentEnergy - voiceprintEnergy| / tolerance) ^ 2)
    let zcrSimilarity :=
      Real.exp (-(|currentFeatures.zeroCrossingRate - vp.zeroCrossingRate| / 0.05) ^ 2)
    energySimilarity * 0.6 + zcrSimilarity * 0.4

/-- Per-layer entry pushed onto `layerResults` (content.js 2812-2875). -/
structure LayerResult where
  name : String
  score : ℝ
  passed : Bool
  weight : ℝ
  threshold : ℝ

/-- Result object of `multiLayerVerification`.  The early-exit object
(content.js 2793) carries only `isVerified`, `confidence`, `layers`, `reason`;
the fields absent there (JS `undefined`) are modelled with `Option`. -/
structure VerificationResult where
  isVerified : Bool
  confidence : ℝ
  layers : List LayerResult
  passedLayers : Option ℕ
  totalLayers : Option ℕ
  requiredLayers : Option ℕ
  threshold : Option ℝ
  context : Option String
  reason : Option String

/-- Context thresholds of content.js 2881-2887: the lookup
`contextThresholds[context] || contextThresholds['general']` yields 0.45 for
`wake_word`, 0.40 for `command`, and 0.35 for `general` or any unknown key. -/
noncomputable def contextRequiredThreshold (context : String) : ℝ :=
  if context = "wake_word" then 0.45
  else if context = "command" then 0.40
  else 0.35

/-- Embedding of `multiLayerVerification` (content.js 2791-2912). -/
noncomputable def multiLayerVerification (voiceprint : Option Voiceprint)
    (currentFeatures : Option VoiceFeatures) (context : String) : VerificationResult :=
  match voiceprint, currentFeatures with
  | some vp, some cf =>
    let energyScore := verifyEnergyPattern cf vp
    let f0Score := calculateFrequencySimilarity cf.fundamentalFreq vp.fundamentalFreq
      vp.fundamentalFreqStd
    let formantScore := calculateFormantSimilarity cf.formants vp.formants
    let spectralScore := calculateSpectralSimilarity cf vp
    let voiceScore := calculateVoiceSimilarity cf vp
    let layerResults : List LayerResult :=
      [⟨"Energy Pattern", energyScore, decide (energyScore ≥ 0.4), 0.15, 0.4⟩,
       ⟨"Fundamental Frequency", f0Score, decide (f0Score ≥ 0.5), 0.25, 0.5⟩,
       ⟨"Formant Structure", formantScore, decide (formantScore ≥ 0.45), 0.25, 0.45⟩,
       ⟨"Spectral Signature", spectralScore, decide (spectralScore ≥ 0.4), 0.20, 0.4⟩,
       ⟨"Voice Characteristics", voiceScore, decide (voiceScore ≥ 0.45), 0.15, 0.45⟩]
    let totalWeightedScore := energyScore * 0.15 + f0Score * 0.25 + formantScore * 0.25 +
      spectralScore * 0.20 + voiceScore * 0.15
    let totalWeight : ℝ := 0.15 + 0.25 + 0.25 + 0.20 + 0.15
    let overallConfidence := if totalWeight > 0 then totalWeightedScore / totalWeight else 0
    let requiredThreshold := contextRequiredThreshold context
    let passedLayers := (layerResults.filter (fun l => l.passed)).length
    let requiredLayers := ⌈(5 : ℝ) * 0.4⌉₊
    let isVerified := decide (overallConfidence ≥ requiredThreshold ∧
      passedLayers ≥ requiredLayers)
    { isVerified := isVerified
      confidence := overallConfidence
      layers := layerResults
      passedLayers := some passedLayers
      totalLayers := some 5
      requiredLayers := some requiredLayers
      threshold := some requiredThreshold
      context := some context
      reason := none }
  | _, _ =>
    { isVerified := false
      confidence := 0
      layers := []
      passedLayers := none
      totalLayers := none
      requiredLayers := none
      threshold := none
      context := none
      reason := some "No voiceprint available" }

/-! ### Wake-word state machine and audio ducking (content.js 314-407, 1243-1268) -/

/-- Observable state of the wake-word coordinator: the `this.*` fields of
`YouTubeVoiceControl` that the wake-word / ducking code reads or writes,
plus the YouTube player's volume.  `videoVolume = none` models
`document.querySelector('video')` finding no element;
`wakeWordTimeoutMs = some d` models a pending
`setTimeout(() => this.resetWakeWord(), d)` (content.js 354-356). -/
structure ControlState where
  voiceprint : Option Voiceprint
  wakeWordDetected : Bool
  isDucking : Bool
  originalVolume : ℝ
  videoVolume : Option ℝ
  wakeWordTimeoutMs : Option ℕ

/-- Constructor constant `this.duckingVolume = 0.05` (content.js 21). -/
noncomputable def duckingVolume : ℝ := 0.05

/-- Constructor constant `this.wakeWordWindow = 4000` (content.js 17). -/
def wakeWordWindow : ℕ := 4000

/-- Embedding of `duckAudio` (content.js 1243-1268). -/
noncomputable def duckAudio (enable : Bool) (s : ControlState) : ControlState :=
  match s.videoVolume with
  | none => s
  | some volume =>
    if enable = true ∧ s.isDucking = false then
      { s with originalVolume := volume, videoVolume := some duckingVolume, isDucking := true }
    else if enable = false ∧ s.isDucking = true then
      { s with videoVolume := some s.originalVolume, isDucking := false }
    else s

/-- Embedding of `resetWakeWord` (content.js 399-407): clear the wake flag,
restore audio, cancel the pending command-window timer. -/
noncomputable def resetWakeWord (s : ControlState) : ControlState :=
  let s1 := { s with wakeWordDetected := false }
  let s2 := duckAudio false s1
  { s2 with wakeWordTimeoutMs := none }

/-- Outcome of one `processWakeWord` call; command dispatch itself
(`processCommand`) is outside the wake-word gating core and is modelled as
the emitted `sameUtteranceCommand` event. -/
inductive WakeOutcome
  | noWakeWord
  | verificationFailed
  | sameUtteranceCommand (commandPart : String)
  | commandWindowOpened
  deriving DecidableEq

/-- JS `String.prototype.trim`: strip whitespace from both ends (list-level
model of the UTF-8 `String.trim`, kept kernel-reducible). -/
def jsTrim (s : String) : String :=
  ⟨((s.data.dropWhile Char.isWhitespace).reverse.dropWhile Char.isWhitespace).reverse⟩

/-- JS `String.prototype.toLowerCase` (character-wise, list-level model of
`String.toLower`, kept kernel-reducible). -/
def jsToLower (s : String) : String :=
  ⟨s.data.map Char.toLower⟩

/-- Substring test modelling JS `String.prototype.includes`. -/
def includesAux (pat : List Char) : List Char → Bool
  | [] => pat.isEmpty
  | c :: cs => pat.isPrefixOf (c :: cs) || includesAux pat cs

/-- JS `s.includes(pat)`. -/
def strIncludes (s pat : String) : Bool :=
  includesAux pat.data s.data

/-- First-occurrence removal modelling JS `s.replace(pat, '')`. -/
def replaceFirstAux (pat : List Char) : List Char → List Char
  | [] => []
  | c :: cs =>
    if pat.isPrefixOf (c :: cs) then (c :: cs).drop pat.length
    else c :: replaceFirstAux pat cs

/-- JS `s.replace(pat, '')` for a nonempty pattern. -/
def jsReplaceEmpty (s pat : String) : String :=
  ⟨replaceFirstAux pat.data s.data⟩

/-- Verification gate of `processWakeWord` (content.js 320-333): skipped when
no voiceprint is stored, otherwise the multi-layer verdict in the
`wake_word` context on the captured features. -/
noncomputable def wakeVerificationPasses (s : ControlState)
    (captured : Option VoiceFeatures) : Bool :=
  match s.voiceprint with
  | none => true
  | some _ => (multiLayerVerification s.voiceprint captured "wake_word").isVerified

/-- Embedding of `processWakeWord` (content.js 314-363).  `captured` is the
feature vector returned by `captureVoiceFeatures` for this utterance (an
input of the transition, since it reads the live analyser). -/
noncomputable def processWakeWord (s : ControlState) (transcript : String)
    (captured : Option VoiceFeatures) : ControlState × WakeOutcome :=
  if strIncludes transcript "youtube" = true then
    if wakeVerificationPasses s captured = true then
      let s1 := { s with wakeWordDetected := true }
      let commandPart := jsTrim (jsReplaceEmpty transcript "youtube")
      if commandPart ≠ "" then
        (duckAudio true s1, WakeOutcome.sameUtteranceCommand commandPart)
      else
        let s2 := duckAudio true s1
        ({ s2 with wakeWordTimeoutMs := some wakeWordWindow }, WakeOutcome.commandWindowOpened)
    else (s, WakeOutcome.verificationFailed)
  else (s, WakeOutcome.noWakeWord)

/-- Firing of the pending command-window timer: its handler is
`() => this.resetWakeWord()` (content.js 354-356). -/
noncomputable def fireWakeWordTimeout (s : ControlState) : ControlState :=
  match s.wakeWordTimeoutMs with
  | some _ => resetWakeWord s
  | none => s

/-! ### Enrollment: phrase matching (content.js 1948-2028, 2746-2788) -/

/-- Canonical enrollment phrase list `this.enrollmentPhrases`
(content.js 42-75). -/
def enrollmentPhrases : List String :=
  ["YouTube pause", "YouTube play", "YouTube stop", "YouTube resume",
   "YouTube mute", "YouTube unmute",
   "YouTube skip", "YouTube back", "YouTube forward", "YouTube restart",
   "YouTube faster", "YouTube slower",
   "YouTube louder", "YouTube quieter",
   "YouTube go to 30 seconds", "YouTube jump to 2 minutes", "YouTube seek 1 hour",
   "YouTube find introduction", "YouTube search tutorial"]

/-- Splitting a character list at spaces (model of `split`). -/
def splitOnSpaceAux : List Char → List Char → List (List Char)
  | [], acc => [acc.reverse]
  | c :: cs, acc =>
    if c = ' ' then acc.reverse :: splitOnSpaceAux cs []
    else splitOnSpaceAux cs (c :: acc)

/-- Word list of JS `s.split(/\s+/)` for text without leading or trailing
whitespace (the only inputs the source feeds it: canonical phrases and
trimmed transcripts). -/
def jsWords (s : String) : List (List Char) :=
  (splitOnSpaceAux s.data []).filter (fun w => decide (w ≠ []))

/-- One dynamic-programming row step of `levenshteinDistance`
(content.js 2776-2785): `left` is the entry just written in the new row,
`diag :: rest` the previous row from the diagonal on. -/
def levAux : List Char → ℕ → List ℕ → Char → List ℕ
  | [], _, _, _ => []
  | _ :: _, _, [], _ => []
  | a :: as, left, diag :: rest, c =>
    let up := rest.headD 0
    let cost := if a = c then 0 else 1
    let v := min (min (left + 1) (up + 1)) (diag + cost)
    v :: levAux as v rest c

/-- Embedding of `levenshteinDistance` (content.js 2770-2788): row-by-row
dynamic programming over `str2`, starting from row `[0, 1, …, |str1|]`. -/
def levenshteinDistance (str1 str2 : List Char) : ℕ :=
  let initRow := List.range (str1.length + 1)
  let finalRow := str2.foldl (fun row c => (row.headD 0 + 1) :: levAux str1 (row.headD 0 + 1) row c) initRow
  finalRow.getLastD 0

/-- Embedding of `calculateCER` (content.js 2763-2768):
`min(levenshtein(spoken, expected) / max(|expected|, 1), 1)`. -/
def calculateCER (spoken expected : String) : ℚ :=
  let distance := levenshteinDistance spoken.data expected.data
  min ((distance : ℚ) / max (expected.length : ℚ) 1) 1

/-- Embedding of `calculatePhraseSimilarity` (content.js 2747-2761); the
word-count/threshold locals there are only logged, the return value is
`1 - CER` on the lower-cased, trimmed pair. -/
def calculatePhraseSimilarity (spoken expected : String) : ℚ :=
  1 - calculateCER (jsTrim (jsToLower spoken)) (jsTrim (jsToLower expected))

/-! ### Enrollment: session timers and callbacks
(content.js 1079-1106, 1826-1852, 1854-2097, 2099-2126) -/

/-- Pending enrollment timers.  `continueAfter d` is an anonymous
`setTimeout(() => this.continueEnrollment(), d)` (d = 1200 on mismatch,
2000 on timeout or between phrases, 1000 between samples); `advanceAfter d`
is `setTimeout(() => this.advanceEnrollment(), d)` (d = 800);
`startListening d` is the `setTimeout` in `continueEnrollment`
(d = 1500); `sessionTimeout` is the closure-local 5 s `enrollmentTimeout`;
`processingTimeout` is the 8 s `this.processingTimeout`;
`countdownInterval` is `this.enrollmentCountdownInterval`; `panelHide` and
`overlayReset` are the UI timers of `hideTrainingPanel` and
`cancelTraining`. -/
inductive ETimer
  | countdownInterval
  | sessionTimeout
  | processingTimeout
  | continueAfter (delayMs : ℕ)
  | advanceAfter (delayMs : ℕ)
  | startListening (delayMs : ℕ)
  | panelHide
  | overlayReset
  deriving DecidableEq

/-- Enrollment-relevant fields of `YouTubeVoiceControl`, together with the
list of pending timers.  `hasGotResult` is the closure-local flag of
`startEnrollmentListening`; `enrollmentSamples` counts captured samples. -/
structure EnrollmentState where
  enrollmentMode : Bool
  isActive : Bool
  recognitionActive : Bool
  hasGotResult : Bool
  enrollmentPhraseMatched : Bool
  currentEnrollmentPhrase : ℕ
  currentSampleCount : ℕ
  samplesPerPhrase : ℕ
  enrollmentSamples : ℕ
  trainingPanel : Bool
  pending : List ETimer
  deriving DecidableEq

/-- Embedding of `cancelTraining` (content.js 1079-1106): stop the active
recognition (its `onend` fires asynchronously, not here), clear the
countdown interval — and only that timer — reset the mode flags, hide the
panel (scheduling its 300 ms removal) and schedule the 2 s overlay reset. -/
def cancelTraining (s : EnrollmentState) : EnrollmentState :=
  let s1 := { s with recognitionActive := false }
  let s2 := { s1 with pending := s1.pending.filter (fun t => decide (t ≠ ETimer.countdownInterval)) }
  let s3 := { s2 with enrollmentMode := false, isActive := false }
  let s4 :=
    if s3.trainingPanel then { s3 with pending := s3.pending ++ [ETimer.panelHide] } else s3
  { s4 with pending := s4.pending ++ [ETimer.overlayReset] }

/-- Embedding of `completeEnrollment` (content.js 2128-2181) restricted to
the fields tracked here; voiceprint aggregation/persistence and the
completion UI timers are outside this timer model. -/
def completeEnrollment (s : EnrollmentState) : EnrollmentState :=
  { s with enrollmentMode := false }

/-- Embedding of `continueEnrollment` (content.js 1826-1852): complete when
past the last phrase, otherwise display the phrase and schedule
`startEnrollmentListening` after 1.5 s.  Note: the source has no
`enrollmentMode` guard. -/
def continueEnrollment (s : EnrollmentState) : EnrollmentState :=
  if s.currentEnrollmentPhrase ≥ enrollmentPhrases.length then completeEnrollment s
  else { s with pending := s.pending ++ [ETimer.startListening 1500] }

/-- Embedding of `advanceEnrollment` (content.js 2099-2126). -/
def advanceEnrollment (s : EnrollmentState) : EnrollmentState :=
  let s1 := { s with currentSampleCount := s.currentSampleCount + 1 }
  if s1.currentSampleCount ≥ s1.samplesPerPhrase then
    let s2 := { s1 with
      currentEnrollmentPhrase := s1.currentEnrollmentPhrase + 1
      currentSampleCount := 0 }
    if s2.currentEnrollmentPhrase ≥ enrollmentPhrases.length then completeEnrollment s2
    else { s2 with pending := s2.pending ++ [ETimer.continueAfter 2000] }
  else { s1 with pending := s1.pending ++ [ETimer.continueAfter 1000] }

/-- Embedding of `startEnrollmentListening` session setup
(content.js 1854-1946): a fresh recognition starts and its `onstart`
schedules the countdown interval, the 5 s session timeout and the 8 s
processing timeout; the closure-local `hasGotResult` starts false. -/
def startEnrollmentListening (s : EnrollmentState) : EnrollmentState :=
  { s with
    recognitionActive := true
    hasGotResult := false
    pending := s.pending ++ [ETimer.countdownInterval, ETimer.sessionTimeout,
      ETimer.processingTimeout] }

/-- Word-count / length gate of the enrollment `onresult` handler
(content.js 1953-1962): the hypothesis is judged only once it has at least
the expected word count or 70 % of the expected character length, is at
least 2 characters, and no earlier result was already taken. -/
def enrollmentGate (s : EnrollmentState) (raw : String) : Prop :=
  let transcript := jsTrim raw
  let expectedPhrase := jsToLower (enrollmentPhrases.getD s.currentEnrollmentPhrase "")
  let expectedWordCount := (jsWords expectedPhrase).length
  let currentWordCount := (jsWords (jsTrim transcript)).length
  (expectedWordCount ≤ currentWordCount ∨
      (expectedPhrase.length : ℚ) * 0.7 ≤ (transcript.length : ℚ)) ∧
    2 ≤ transcript.length ∧ s.hasGotResult = false

instance (s : EnrollmentState) (raw : String) : Decidable (enrollmentGate s raw) := by
  unfold enrollmentGate
  infer_instance

/-- Embedding of the enrollment `onresult` handler (content.js 1948-2028):
past the gate it clears the three session timers, sets `hasGotResult`,
compares `calculatePhraseSimilarity` against 0.8 (expected phrase of at
most 3 words) or 0.7, and either captures one sample, stops the session
and schedules `advanceEnrollment` (match), or stops the session and
schedules a 1.2 s retry (mismatch). -/
def enrollmentOnResult (s : EnrollmentState) (raw : String) : EnrollmentState :=
  let transcript := jsTrim raw
  let expectedPhrase := jsToLower (enrollmentPhrases.getD s.currentEnrollmentPhrase "")
  let expectedWordCount := (jsWords expectedPhrase).length
  if enrollmentGate s raw then
    let s1 := { s with
      pending := s.pending.filter (fun t => decide (t ≠ ETimer.sessionTimeout) &&
        decide (t ≠ ETimer.countdownInterval) && decide (t ≠ ETimer.processingTimeout))
      hasGotResult := true }
    let similarity := calculatePhraseSimilarity (jsToLower transcript) expectedPhrase
    let requiredSimilarity : ℚ := if expectedWordCount ≤ 3 then 0.8 else 0.7
    if requiredSimilarity ≤ similarity then
      { s1 with
        recognitionActive := false
        enrollmentPhraseMatched := true
        enrollmentSamples := s1.enrollmentSamples + 1
        pending := s1.pending ++ [ETimer.advanceAfter 800] }
    else
      { s1 with
        recognitionActive := false
        enrollmentPhraseMatched := false
        pending := s1.pending ++ [ETimer.continueAfter 1200] }
  else s

/-- One pending timer fires: it is removed from the pending list and its
handler (as written at the corresponding `setTimeout` call site) runs.  A
timer that is no longer pending does nothing — firing it was prevented by
`clearTimeout`/`clearInterval`. -/
def fireTimer (s : EnrollmentState) (t : ETimer) : EnrollmentState :=
  if t ∈ s.pending then
    match t with
    | ETimer.countdownInterval =>
      -- repeating UI tick (content.js 1888-1919); it self-clears once a
      -- result has been taken, otherwise only updates the panel
      if s.hasGotResult then
        { s with pending := s.pending.erase ETimer.countdownInterval }
      else s
    | ETimer.sessionTimeout =>
      -- content.js 1922-1929: without a result, clear the countdown and
      -- stop the recognition
      let s1 := { s with pending := s.pending.erase ETimer.sessionTimeout }
      if ¬ s1.hasGotResult then
        { s1 with
          pending := s1.pending.erase ETimer.countdownInterval
          recognitionActive := false }
      else s1
    | ETimer.processingTimeout =>
      -- content.js 1932-1945
      let s1 := { s with pending := s.pending.erase ETimer.processingTimeout }
      if s1.hasGotResult ∧ ¬ s1.enrollmentPhraseMatched then
        { s1 with recognitionActive := false }
      else s1
    | ETimer.continueAfter d =>
      continueEnrollment { s with pending := s.pending.erase (ETimer.continueAfter d) }
    | ETimer.advanceAfter d =>
      advanceEnrollment { s with pending := s.pending.erase (ETimer.advanceAfter d) }
    | ETimer.startListening d =>
      startEnrollmentListening { s with pending := s.pending.erase (ETimer.startListening d) }
    | ETimer.panelHide =>
      { s with pending := s.pending.erase ETimer.panelHide, trainingPanel := false }
    | ETimer.overlayReset =>
      { s with pending := s.pending.erase ETimer.overlayReset }
  else s

/-! ### Feature extraction (content.js 2183-2446)

An analysis frame is a frequency-magnitude byte array and a time-domain byte
array (`Uint8Array`, values 0-255, modelled as `List ℕ`) plus the audio
context's sample rate.  Out-of-range JS array reads (`undefined`) only arise
for sample rates far below any real audio rate; `getD _ 0` models the
in-domain behaviour (an `undefined` operand makes the JS comparisons false,
exactly as the default 0 does at the places it can occur). -/

/-- Embedding of `extractFundamentalFrequency` (content.js 2226-2256): local
maxima above magnitude 30 among the bins mapping to 80-400 Hz; returns the
frequency of the highest-magnitude peak (first in the stable
sort-by-magnitude order, i.e. the lowest such bin), or 0. -/
noncomputable def extractFundamentalFrequency (sampleRate : ℝ) (frequencyData : List ℕ) : ℝ :=
  let nyquist := sampleRate / 2
  let n := frequencyData.length
  let startBin := ⌊80 * (n : ℝ) / nyquist⌋₊
  let endBin := ⌊400 * (n : ℝ) / nyquist⌋₊
  let idxs := (List.range n).filter (fun i => decide (startBin + 1 ≤ i) && decide (i + 1 < endBin))
  let peaks := idxs.filter (fun i =>
    decide (frequencyData.getD (i - 1) 0 < frequencyData.getD i 0) &&
    decide (frequencyData.getD (i + 1) 0 < frequencyData.getD i 0) &&
    decide (30 < frequencyData.getD i 0))
  let best := peaks.foldl (fun (best : Option ℕ) (i : ℕ) =>
    match best with
    | none => some i
    | some b => if frequencyData.getD b 0 < frequencyData.getD i 0 then some i else some b) none
  match best with
  | some i => (i : ℝ) * nyquist / n
  | none => 0

/-- Embedding of one band of `extractFormants` (content.js 2272-2292): the
bin of maximum magnitude in `[startBin, endBin)`, ties to the lowest bin,
`(startBin, 0)` when the band is empty. -/
noncomputable def formantInBand (sampleRate : ℝ) (frequencyData : List ℕ)
    (lo hi : ℝ) : Formant :=
  let nyquist := sampleRate / 2
  let n := frequencyData.length
  let startBin := ⌊lo * (n : ℝ) / nyquist⌋₊
  let endBin := ⌊hi * (n : ℝ) / nyquist⌋₊
  let r := ((List.range n).filter (fun i => decide (startBin ≤ i) && decide (i < endBin))).foldl
    (fun (acc : ℕ × ℕ) i =>
      if frequencyData.getD i 0 > acc.2 then (i, frequencyData.getD i 0) else acc)
    (startBin, 0)
  ⟨(r.1 : ℝ) * nyquist / n, (r.2 : ℝ)⟩

/-- Embedding of `extractFormants` (content.js 2259-2295) over the three
fixed bands 300-1000, 800-2500, 1500-3500 Hz. -/
noncomputable def extractFormants (sampleRate : ℝ) (frequencyData : List ℕ) : List Formant :=
  [formantInBand sampleRate frequencyData 300 1000,
   formantInBand sampleRate frequencyData 800 2500,
   formantInBand sampleRate frequencyData 1500 3500]

/-- Embedding of `calculateSpectralCentroid` (content.js 2297-2308). -/
noncomputable def calculateSpectralCentroid (sampleRate : ℝ) (frequencyData : List ℕ) : ℝ :=
  let n := frequencyData.length
  let numerator := (List.range n).foldl
    (fun (acc : ℝ) (i : ℕ) => acc + (i : ℝ) * (sampleRate / 2) / n * ((frequencyData.getD i 0 : ℕ) : ℝ)) 0
  let denominator := ((frequencyData.map (fun v => (v : ℝ))).sum)
  if denominator > 0 then numerator / denominator else 0

/-- Cumulative-sum walk of `calculateSpectralRolloff` (content.js 2314-2320). -/
noncomputable def rolloffAux (sampleRate : ℝ) (n : ℕ) (threshold : ℝ) :
    List ℕ → ℕ → ℝ → ℝ
  | [], _, _ => 0
  | v :: vs, i, cum =>
    let cum1 := cum + (v : ℝ)
    if cum1 ≥ threshold then (i : ℝ) * (sampleRate / 2) / n
    else rolloffAux sampleRate n threshold vs (i + 1) cum1

/-- Embedding of `calculateSpectralRolloff` (content.js 2310-2323): frequency
of the first bin at which the cumulative magnitude reaches 85 % of the
total, 0 when never reached. -/
noncomputable def calculateSpectralRolloff (sampleRate : ℝ) (frequencyData : List ℕ) : ℝ :=
  let totalEnergy := ((frequencyData.map (fun v => (v : ℝ))).sum)
  let threshold := totalEnergy * 0.85
  rolloffAux sampleRate frequencyData.length threshold frequencyData 0 0

/-- Embedding of `calculateMFCC` (content.js 2325-2344): 13 equal-width
bands, `log(sum + 1)` per band (band bounds via `Math.floor`, which on the
naturals `m * n / 13` is exact natural division). -/
noncomputable def calculateMFCC (frequencyData : List ℕ) : List ℝ :=
  let n := frequencyData.length
  (List.range 13).map (fun m =>
    let start := m * n / 13
    let stop := (m + 1) * n / 13
    let sum : ℕ := ((frequencyData.drop start).take (stop - start)).foldl (· + ·) 0
    Real.log ((sum : ℝ) + 1))

/-- Embedding of `calculateZeroCrossingRate` (content.js 2346-2357):
fraction of adjacent sample pairs whose values straddle the 128 midpoint. -/
noncomputable def calculateZeroCrossingRate (timeDomainData : List ℕ) : ℝ :=
  let crossings := ((timeDomainData.zip (timeDomainData.drop 1)).filter
    (fun p => decide (((p.1 : ℤ) - 128) * ((p.2 : ℤ) - 128) < 0))).length
  (crossings : ℝ) / timeDomainData.length

/-- Embedding of `calculateEnergy` (content.js 2359-2366). -/
noncomputable def calculateEnergy (timeDomainData : List ℕ) : ℝ :=
  (timeDomainData.foldl (fun (acc : ℝ) (v : ℕ) => acc + (((v : ℝ) - 128) / 128) ^ 2) 0) /
    timeDomainData.length

/-- Embedding of `calculateSpectralFlux` (content.js 2368-2376):
`sqrt(mean of squared adjacent-bin differences)` over a single frame. -/
noncomputable def calculateSpectralFlux (frequencyData : List ℕ) : ℝ :=
  let flux := (frequencyData.zip (frequencyData.drop 1)).foldl
    (fun acc p => acc + ((p.2 : ℝ) - (p.1 : ℝ)) ^ 2) 0
  Real.sqrt (flux / frequencyData.length)

/-- Embedding of `calculateSpectralFlatness` (content.js 2378-2394).  The JS
loop starts at index 1 and multiplies `pow(magnitude, 1/frequencyData.length)`
per nonzero bin — the exponent is `1/N` (array length), not `1/count`. -/
noncomputable def calculateSpectralFlatness (frequencyData : List ℕ) : ℝ :=
  let n := frequencyData.length
  let nz := (frequencyData.drop 1).filter (fun m => decide (0 < m))
  let geometricMean := nz.foldl (fun (acc : ℝ) (m : ℕ) => acc * (m : ℝ) ^ ((1 : ℝ) / n)) 1
  let count := nz.length
  let arithmeticMean := (nz.foldl (fun (acc : ℝ) (m : ℕ) => acc + (m : ℝ)) 0) / count
  if count > 0 then geometricMean / arithmeticMean else 0

/-- Embedding of `calculateVoicedRatio` (content.js 2396-2416): fraction of
total magnitude between 100 and 1000 Hz. -/
noncomputable def calculateVoicedRatio (sampleRate : ℝ) (frequencyData : List ℕ) : ℝ :=
  let nyquist := sampleRate / 2
  let n := frequencyData.length
  let r := (List.range n).foldl (fun (acc : ℝ × ℝ) (i : ℕ) =>
    let freq := (i : ℝ) * nyquist / n
    let total := acc.1 + ((frequencyData.getD i 0 : ℕ) : ℝ)
    let harmonic :=
      if 100 ≤ freq ∧ freq ≤ 1000 then acc.2 + ((frequencyData.getD i 0 : ℕ) : ℝ) else acc.2
    (total, harmonic)) (0, 0)
  if r.1 > 0 then r.2 / r.1 else 0

/-- Embedding of `calculateHarmonicRatio` (content.js 2418-2446): magnitude
at the bins nearest F0 and its multiples up to the 8th harmonic (the JS
`break` on exceeding Nyquist is a filter here, as the harmonic frequency is
increasing), divided by total magnitude; 0 when F0 < 50 Hz. -/
noncomputable def calculateHarmonicRatio (sampleRate : ℝ) (frequencyData : List ℕ) : ℝ :=
  let f0 := extractFundamentalFrequency sampleRate frequencyData
  if f0 < 50 then 0
  else
    let nyquist := sampleRate / 2
    let n := frequencyData.length
    let harmonicSum := ((List.range 8).map (fun h => h + 1)).foldl (fun (acc : ℝ) (harmonic : ℕ) =>
      let harmonicFreq := f0 * (harmonic : ℝ)
      if harmonicFreq > nyquist then acc
      else
        let bin := (round (harmonicFreq * n / nyquist)).toNat
        if bin < n then acc + ((frequencyData.getD bin 0 : ℕ) : ℝ) else acc) 0
    let totalSum := ((frequencyData.map (fun v => (v : ℝ))).sum)
    if totalSum > 0 then harmonicSum / totalSum else 0

/-- Embedding of `captureVoiceFeatures` (content.js 2183-2224) for a present
analyser: a pure function of the captured frame (frequency array, time
array, sample rate), the transcript argument and the `Date.now()` value.
The `isEnrollment` sample push is the caller's state change
(`enrollmentOnResult` counts it); the returned vector is built here. -/
noncomputable def captureVoiceFeatures (sampleRate : ℝ)
    (frequencyData timeDomainData : List ℕ) (transcript : String) (now : ℕ) :
    VoiceFeatures :=
  { fundamentalFreq := extractFundamentalFrequency sampleRate frequencyData
    formants := extractFormants sampleRate frequencyData
    spectralCentroid := calculateSpectralCentroid sampleRate frequencyData
    spectralRolloff := calculateSpectralRolloff sampleRate frequencyData
    spectralFlux := calculateSpectralFlux frequencyData
    spectralFlatness := calculateSpectralFlatness frequencyData
    mfcc := calculateMFCC frequencyData
    zeroCrossingRate := calculateZeroCrossingRate timeDomainData
    energy := calculateEnergy timeDomainData
    voicedRatio := calculateVoicedRatio sampleRate frequencyData
    harmonicRatio := calculateHarmonicRatio sampleRate frequencyData
    transcript := transcript
    timestamp := now }

/-- State-threaded form of a `multiLayerVerification` call: the method body
(content.js 2791-2912) contains no assignment to any `this.*` field on any
path, so the caller's stored voiceprint is returned unchanged. -/
noncomputable def multiLayerVerificationCall (storedVoiceprint : Option Voiceprint)
    (currentFeatures : Option VoiceFeatures) (context : String) :
    VerificationResult × Option Voiceprint :=
  (multiLayerVerification storedVoiceprint currentFeatures context, storedVoiceprint)

/-! ### Theorems -/

/-- C7: the gaussian similarity used by the verification layers satisfies
`gaussianSimilarity a a tol = 1` for every `a` and every `tol > 0`, and its
result always lies in the closed interval `[0, 1]`. -/
theorem gaussianSimilarity_self_and_range :
    (∀ a tol : ℝ, 0 < tol → gaussianSimilarity a a tol = 1) ∧
    (∀ a b tol : ℝ, 0 ≤ gaussianSimilarity a b tol ∧ gaussianSimilarity a b tol ≤ 1) := by
  constructor
  · intro a tol _
    simp [gaussianSimilarity, sub_self, abs_zero, zero_div, Real.exp_zero]
  · intro a b tol
    exact ⟨le_max_left 0 _, max_le (by norm_num) (min_le_left 1 _)⟩

/-- Witness for C7 at `a = 2`, `tol = 1` and `(a, b, tol) = (3, 5, 1)`. -/
theorem gaussianSimilarity_self_and_range_witness :
    (0 < (1 : ℝ)) ∧ gaussianSimilarity 2 2 1 = 1 ∧
      (0 ≤ gaussianSimilarity 3 5 1 ∧ gaussianSimilarity 3 5 1 ≤ 1) :=
  ⟨by norm_num, gaussianSimilarity_self_and_range.1 2 1 (by norm_num),
   gaussianSimilarity_self_and_range.2 3 5 1⟩

/-- C10: with no stored voiceprint or a null feature vector,
`multiLayerVerification` returns `isVerified = false`, confidence 0 and an
empty layer list, and leaves the stored voiceprint unchanged. -/
theorem multiLayer_null_guard (voiceprint : Option Voiceprint)
    (currentFeatures : Option VoiceFeatures) (context : String)
    (h : voiceprint = none ∨ currentFeatures = none) :
    (multiLayerVerificationCall voiceprint currentFeatures context).1.isVerified = false ∧
    (multiLayerVerificationCall voiceprint currentFeatures context).1.confidence = 0 ∧
    (multiLayerVerificationCall voiceprint currentFeatures context).1.layers = [] ∧
    (multiLayerVerificationCall voiceprint currentFeatures context).2 = voiceprint := by
  rcases h with h | h <;> subst h
  · cases currentFeatures <;>
      simp [multiLayerVerificationCall, multiLayerVerification]
  · cases voiceprint <;>
      simp [multiLayerVerificationCall, multiLayerVerification]

/-- Witness for C10 with no stored voiceprint and a null feature vector. -/
theorem multiLayer_null_guard_witness :
    ((none : Option Voiceprint) = none ∨ (none : Option VoiceFeatures) = none) ∧
    ((multiLayerVerificationCall none none "general").1.isVerified = false ∧
     (multiLayerVerificationCall none none "general").1.confidence = 0 ∧
     (multiLayerVerificationCall none none "general").1.layers = [] ∧
     (multiLayerVerificationCall none none "general").2 = none) :=
  ⟨Or.inl rfl, multiLayer_null_guard none none "general" (Or.inl rfl)⟩

/-- C1: with a stored voiceprint and a feature vector present, the overall
confidence is the weighted mean of the five layer scores with weights
0.15, 0.25, 0.25, 0.20, 0.15, and `isVerified = true` exactly when that
confidence reaches the context threshold (0.45 wake_word / 0.40 command /
0.35 otherwise) and at least 2 of the 5 layers reach their own pass
thresholds (0.40, 0.50, 0.45, 0.40, 0.45). -/
theorem multiLayer_weighted_mean_and_verdict (vp : Voiceprint) (cf : VoiceFeatures)
    (context : String) :
    (multiLayerVerification (some vp) (some cf) context).confidence =
      (0.15 * verifyEnergyPattern cf vp +
       0.25 * calculateFrequencySimilarity cf.fundamentalFreq vp.fundamentalFreq
         vp.fundamentalFreqStd +
       0.25 * calculateFormantSimilarity cf.formants vp.formants +
       0.20 * calculateSpectralSimilarity cf vp +
       0.15 * calculateVoiceSimilarity cf vp) / (0.15 + 0.25 + 0.25 + 0.20 + 0.15) ∧
    ((multiLayerVerification (some vp) (some cf) context).isVerified = true ↔
      ((multiLayerVerification (some vp) (some cf) context).confidence ≥
          (if context = "wake_word" then 0.45
           else if context = "command" then 0.40 else 0.35) ∧
        2 ≤ (if verifyEnergyPattern cf vp ≥ 0.4 then 1 else 0) +
            (if calculateFrequencySimilarity cf.fundamentalFreq vp.fundamentalFreq
                vp.fundamentalFreqStd ≥ 0.5 then 1 else 0) +
            (if calculateFormantSimilarity cf.formants vp.formants ≥ 0.45 then 1 else 0) +
            (if calculateSpectralSimilarity cf vp ≥ 0.4 then 1 else 0) +
            (if calculateVoiceSimilarity cf vp ≥ 0.45 then (1 : ℕ) else 0))) := by
  have hreq : (⌈(5 : ℝ) * 0.4⌉₊ : ℕ) = 2 := by
    rw [show (5 : ℝ) * 0.4 = ((2 : ℕ) : ℝ) by norm_num, Nat.ceil_natCast]
  have htw : (0 : ℝ) < 0.15 + 0.25 + 0.25 + 0.20 + 0.15 := by norm_num
  constructor
  · simp only [multiLayerVerification]
    rw [if_pos (show (0.15 + 0.25 + 0.25 + 0.20 + 0.15 : ℝ) > 0 from htw)]
    ring
  · simp only [multiLayerVerification, contextRequiredThreshold, decide_eq_true_eq, hreq, htw]
    by_cases h1 : verifyEnergyPattern cf vp ≥ 0.4 <;>
    by_cases h2 : calculateFrequencySimilarity cf.fundamentalFreq vp.fundamentalFreq
      vp.fundamentalFreqStd ≥ 0.5 <;>
    by_cases h3 : calculateFormantSimilarity cf.formants vp.formants ≥ 0.45 <;>
    by_cases h4 : calculateSpectralSimilarity cf vp ≥ 0.4 <;>
    by_cases h5 : calculateVoiceSimilarity cf vp ≥ 0.45 <;>
    simp [h1, h2, h3, h4, h5, htw, List.filter]

/-- Feature vector whose every acoustic field equals the corresponding
stored-voiceprint field (the "identical frame" of claim C2). -/
noncomputable def featuresOf (vp : Voiceprint) (transcript : String) (timestamp : ℕ) :
    VoiceFeatures :=
  { fundamentalFreq := vp.fundamentalFreq
    formants := vp.formants
    spectralCentroid := vp.spectralCentroid
    spectralRolloff := vp.spectralRolloff
    spectralFlux := vp.spectralFlux
    spectralFlatness := vp.spectralFlatness
    mfcc := vp.mfcc
    zeroCrossingRate := vp.zeroCrossingRate
    energy := vp.energy
    voicedRatio := vp.voicedRatio
    harmonicRatio := vp.harmonicRatio
    transcript := transcript
    timestamp := timestamp }

lemma verifyEnergyPattern_self (vp : Voiceprint) (tr : String) (ts : ℕ)
    (hE : vp.energy ≠ 0) : verifyEnergyPattern (featuresOf vp tr ts) vp = 1 := by
  simp [verifyEnergyPattern, featuresOf, hE, sub_self, abs_zero, zero_div, Real.exp_zero]
  norm_num

lemma calculateFrequencySimilarity_self (a stdDev : ℝ) (h : a ≠ 0) :
    calculateFrequencySimilarity a a stdDev = 1 := by
  simp [calculateFrequencySimilarity, h, sub_self, abs_zero, zero_div, Real.exp_zero]

lemma calculateFormantSimilarity_self (l : List Formant) (h3 : l.length = 3)
    (hnz : ∀ f ∈ l, f.frequency ≠ 0) : calculateFormantSimilarity l l = 1 := by
  obtain ⟨a, b, c, rfl⟩ := List.length_eq_three.mp h3
  have ha : a.frequency ≠ 0 := hnz a (by simp)
  have hb : b.frequency ≠ 0 := hnz b (by simp)
  have hc : c.frequency ≠ 0 := hnz c (by simp)
  simp [calculateFormantSimilarity, List.range_succ, ha, hb, hc, sub_self, abs_zero,
    zero_div, Real.exp_zero]
  norm_num

lemma calculateSpectralSimilarity_self (vp : Voiceprint) (tr : String) (ts : ℕ)
    (h : vp.spectralCentroid ≠ 0 ∨ vp.spectralRolloff ≠ 0 ∨ vp.spectralFlux ≠ 0 ∨
      vp.spectralFlatness ≠ 0) :
    calculateSpectralSimilarity (featuresOf vp tr ts) vp = 1 := by
  by_cases c1 : vp.spectralCentroid = 0 <;>
  by_cases c2 : vp.spectralRolloff = 0 <;>
  by_cases c3 : vp.spectralFlux = 0 <;>
  by_cases c4 : vp.spectralFlatness = 0 <;>
  simp_all [calculateSpectralSimilarity, featuresOf, sub_self, abs_zero,
    zero_div, Real.exp_zero] <;>
  norm_num

lemma calculateVoiceSimilarity_self (vp : Voiceprint) (tr : String) (ts : ℕ) :
    calculateVoiceSimilarity (featuresOf vp tr ts) vp = 1 := by
  simp [calculateVoiceSimilarity, featuresOf, sub_self, abs_zero, zero_div, Real.exp_zero]
  norm_num

/-- C2 (amended): when the stored voiceprint has nonzero energy, nonzero
fundamental frequency, three formants of nonzero frequency and at least one
nonzero spectral feature, a feature vector identical to it yields
confidence 1 and `isVerified = true` in the contexts `wake_word`, `command`
and `general`. -/
theorem identicalFeatures_full_confidence (vp : Voiceprint) (tr : String) (ts : ℕ)
    (hE : vp.energy ≠ 0) (hF0 : vp.fundamentalFreq ≠ 0)
    (hLen : vp.formants.length = 3)
    (hFreq : ∀ f ∈ vp.formants, f.frequency ≠ 0)
    (hSp : vp.spectralCentroid ≠ 0 ∨ vp.spectralRolloff ≠ 0 ∨ vp.spectralFlux ≠ 0 ∨
      vp.spectralFlatness ≠ 0) :
    ∀ context ∈ ["wake_word", "command", "general"],
      (multiLayerVerification (some vp) (some (featuresOf vp tr ts)) context).confidence = 1 ∧
      (multiLayerVerification (some vp) (some (featuresOf vp tr ts)) context).isVerified
        = true := by
  have e1 : verifyEnergyPattern (featuresOf vp tr ts) vp = 1 :=
    verifyEnergyPattern_self vp tr ts hE
  have e2 : calculateFrequencySimilarity (featuresOf vp tr ts).fundamentalFreq
      vp.fundamentalFreq vp.fundamentalFreqStd = 1 :=
    calculateFrequencySimilarity_self vp.fundamentalFreq vp.fundamentalFreqStd hF0
  have e3 : calculateFormantSimilarity (featuresOf vp tr ts).formants vp.formants = 1 :=
    calculateFormantSimilarity_self vp.formants hLen hFreq
  have e4 : calculateSpectralSimilarity (featuresOf vp tr ts) vp = 1 :=
    calculateSpectralSimilarity_self vp tr ts hSp
  have e5 : calculateVoiceSimilarity (featuresOf vp tr ts) vp = 1 :=
    calculateVoiceSimilarity_self vp tr ts
  have hconf : ∀ context : String,
      (multiLayerVerification (some vp) (some (featuresOf vp tr ts)) context).confidence
        = 1 := by
    intro context
    simp only [multiLayerVerification, e1, e2, e3, e4, e5]
    norm_num
  have hver : ∀ context : String, contextRequiredThreshold context ≤ 1 →
      (multiLayerVerification (some vp) (some (featuresOf vp tr ts)) context).isVerified
        = true := by
    intro context hθ
    have hd4 : decide ((1 : ℝ) ≥ 0.4) = true := decide_eq_true (by norm_num)
    have hd5 : decide ((1 : ℝ) ≥ 0.5) = true := decide_eq_true (by norm_num)
    have hd45 : decide ((1 : ℝ) ≥ 0.45) = true := decide_eq_true (by norm_num)
    have hreq : (⌈(5 : ℝ) * 0.4⌉₊ : ℕ) = 2 := by
      rw [show (5 : ℝ) * 0.4 = ((2 : ℕ) : ℝ) by norm_num, Nat.ceil_natCast]
    have hone : (1 * 0.15 + 1 * 0.25 + 1 * 0.25 + 1 * 0.20 + 1 * 0.15) /
        (0.15 + 0.25 + 0.25 + 0.20 + 0.15) = (1 : ℝ) := by norm_num
    simp only [multiLayerVerification, e1, e2, e3, e4, e5]
    rw [decide_eq_true_eq]
    refine ⟨?_, ?_⟩
    · rw [ge_iff_le, if_pos (by norm_num : (0.15 + 0.25 + 0.25 + 0.20 + 0.15 : ℝ) > 0),
        hone]
      exact hθ
    · simp [hd4, hd5, hd45, List.filter_cons, hreq]
  intro context hctx
  have hθ : contextRequiredThreshold context ≤ 1 := by
    unfold contextRequiredThreshold
    split
    · norm_num
    · split <;> norm_num
  exact ⟨hconf _, hver _ hθ⟩

/-- All-zero stored voiceprint (as produced from silent frames: flat
time-domain data at 128 and zero magnitudes). -/
noncomputable def zeroVoiceprint : Voiceprint :=
  { fundamentalFreq := 0
    spectralCentroid := 0
    spectralRolloff := 0
    spectralFlux := 0
    spectralFlatness := 0
    zeroCrossingRate := 0
    energy := 0
    voicedRatio := 0
    harmonicRatio := 0
    mfcc := List.replicate 13 0
    formants := [⟨0, 0⟩, ⟨0, 0⟩, ⟨0, 0⟩]
    fundamentalFreqStd := 0
    energyStd := 0
    spectralCentroidStd := 0
    sampleCount := 1
    createdAt := 0 }

/-- Counterexample to C2 as stated: for the all-zero voiceprint, the
identical feature vector yields confidence 0.15 (only the voice-
characteristics layer scores 1) and `isVerified = false` in the wake_word
context. -/
theorem identicalFeatures_counterexample :
    (multiLayerVerification (some zeroVoiceprint)
        (some (featuresOf zeroVoiceprint "" 0)) "wake_word").confidence ≠ 1 ∧
    (multiLayerVerification (some zeroVoiceprint)
        (some (featuresOf zeroVoiceprint "" 0)) "wake_word").isVerified = false := by
  have e1 : verifyEnergyPattern (featuresOf zeroVoiceprint "" 0) zeroVoiceprint = 0 := by
    simp [verifyEnergyPattern, featuresOf, zeroVoiceprint]
  have e2 : calculateFrequencySimilarity (featuresOf zeroVoiceprint "" 0).fundamentalFreq
      zeroVoiceprint.fundamentalFreq zeroVoiceprint.fundamentalFreqStd = 0 := by
    simp [calculateFrequencySimilarity, featuresOf, zeroVoiceprint]
  have e3 : calculateFormantSimilarity (featuresOf zeroVoiceprint "" 0).formants
      zeroVoiceprint.formants = 0 := by
    simp [calculateFormantSimilarity, featuresOf, zeroVoiceprint, List.range_succ]
  have e4 : calculateSpectralSimilarity (featuresOf zeroVoiceprint "" 0) zeroVoiceprint
      = 0 := by
    simp [calculateSpectralSimilarity, featuresOf, zeroVoiceprint]
  have e5 : calculateVoiceSimilarity (featuresOf zeroVoiceprint "" 0) zeroVoiceprint
      = 1 := by
    simp [calculateVoiceSimilarity, featuresOf, zeroVoiceprint, sub_self, abs_zero,
      zero_div, Real.exp_zero]
    norm_num
  constructor
  · simp only [multiLayerVerification, e1, e2, e3, e4, e5]
    norm_num
  · simp only [multiLayerVerification, e1, e2, e3, e4, e5]
    rw [decide_eq_false_iff_not]
    intro hcontra
    rcases hcontra with ⟨hconf, -⟩
    rw [if_pos (by norm_num : (0 : ℝ) < 0.15 + 0.25 + 0.25 + 0.20 + 0.15)] at hconf
    simp [contextRequiredThreshold] at hconf
    norm_num at hconf

/-- Nonzero voiceprint used as the concrete witness input for C2. -/
noncomputable def witnessVoiceprint : Voiceprint :=
  { fundamentalFreq := 150
    spectralCentroid := 1200
    spectralRolloff := 2400
    spectralFlux := 5
    spectralFlatness := 0.3
    zeroCrossingRate := 0.1
    energy := 0.2
    voicedRatio := 0.5
    harmonicRatio := 0.4
    mfcc := List.replicate 13 1
    formants := [⟨500, 10⟩, ⟨1500, 20⟩, ⟨2500, 15⟩]
    fundamentalFreqStd := 5
    energyStd := 0.01
    spectralCentroidStd := 100
    sampleCount := 19
    createdAt := 0 }

/-- Witness for the amended C2 at a concrete nonzero voiceprint. -/
theorem identicalFeatures_full_confidence_witness :
    (witnessVoiceprint.energy ≠ 0 ∧ witnessVoiceprint.fundamentalFreq ≠ 0 ∧
     witnessVoiceprint.formants.length = 3 ∧
     (∀ f ∈ witnessVoiceprint.formants, f.frequency ≠ 0) ∧
     witnessVoiceprint.spectralCentroid ≠ 0) ∧
    ((multiLayerVerification (some witnessVoiceprint)
        (some (featuresOf witnessVoiceprint "youtube" 0)) "wake_word").confidence = 1 ∧
     (multiLayerVerification (some witnessVoiceprint)
        (some (featuresOf witnessVoiceprint "youtube" 0)) "wake_word").isVerified = true) := by
  have h1 : witnessVoiceprint.energy ≠ 0 := by norm_num [witnessVoiceprint]
  have h2 : witnessVoiceprint.fundamentalFreq ≠ 0 := by norm_num [witnessVoiceprint]
  have h3 : witnessVoiceprint.formants.length = 3 := by simp [witnessVoiceprint]
  have h4 : ∀ f ∈ witnessVoiceprint.formants, f.frequency ≠ 0 := by
    intro f hf
    simp [witnessVoiceprint] at hf
    rcases hf with h | h | h <;> subst h <;> norm_num
  have h5 : witnessVoiceprint.spectralCentroid ≠ 0 := by norm_num [witnessVoiceprint]
  exact ⟨⟨h1, h2, h3, h4, h5⟩,
    identicalFeatures_full_confidence witnessVoiceprint "youtube" 0 h1 h2 h3 h4
      (Or.inl h5) "wake_word" (by simp)⟩

lemma duckAudio_enable_noop (s : ControlState) (h : s.isDucking = true) :
    duckAudio true s = s := by
  unfold duckAudio
  cases hv : s.videoVolume with
  | none => rfl
  | some v => simp [h]

lemma duckAudio_disable_noop (s : ControlState) (h : s.isDucking = false) :
    duckAudio false s = s := by
  unfold duckAudio
  cases hv : s.videoVolume with
  | none => rfl
  | some v => simp [h]

lemma duckAudio_enable_ducks (s : ControlState) (v : ℝ) (h : s.isDucking = false)
    (hv : s.videoVolume = some v) :
    duckAudio true s =
      { s with originalVolume := v, videoVolume := some duckingVolume, isDucking := true } := by
  unfold duckAudio
  rw [hv]
  simp [h]

/-- Already-ducked player state used as the C6 counterexample (the playback
volume sits at the ducked level 0.05 while the remembered original volume
is 1). -/
noncomputable def duckedState : ControlState :=
  { voiceprint := none
    wakeWordDetected := false
    isDucking := true
    originalVolume := 1
    videoVolume := some (1 / 20)
    wakeWordTimeoutMs := none }

/-- Counterexample to C6 as stated: starting already ducked, two consecutive
`duckAudio(true)` calls leave the remembered original volume at 1, which is
not the playback volume in effect before the first call (1/20). -/
theorem duckAudio_double_duck_counterexample :
    duckedState.videoVolume = some (1 / 20) ∧
    (duckAudio true (duckAudio true duckedState)).originalVolume = 1 ∧
    (1 : ℝ) ≠ 1 / 20 := by
  have h : duckAudio true duckedState = duckedState :=
    duckAudio_enable_noop duckedState rfl
  refine ⟨rfl, ?_, by norm_num⟩
  rw [h, h]
  rfl

/-- C6 (amended): `duckAudio(true)` while ducked and `duckAudio(false)` while
not ducked are complete no-ops; and when a video is present and the player
is not yet ducked, two consecutive `duckAudio(true)` calls leave the
remembered original volume equal to the playback volume in effect before
the first call (the second call being a no-op). -/
theorem duckAudio_idempotent (s : ControlState) (v : ℝ) :
    (s.isDucking = true → duckAudio true s = s) ∧
    (s.isDucking = false → duckAudio false s = s) ∧
    (s.isDucking = false → s.videoVolume = some v →
      duckAudio true (duckAudio true s) = duckAudio true s ∧
      (duckAudio true (duckAudio true s)).originalVolume = v) := by
  refine ⟨duckAudio_enable_noop s, duckAudio_disable_noop s, fun h hv => ?_⟩
  have h1 : duckAudio true s =
      { s with originalVolume := v, videoVolume := some duckingVolume, isDucking := true } :=
    duckAudio_enable_ducks s v h hv
  have h2 : duckAudio true (duckAudio true s) = duckAudio true s := by
    rw [h1]
    exact duckAudio_enable_noop _ rfl
  rw [h2, h1]
  exact ⟨rfl, rfl⟩

/-- Not-yet-ducked player state with a video at volume 1, used as the C6
witness input. -/
noncomputable def unduckedState : ControlState :=
  { voiceprint := none
    wakeWordDetected := false
    isDucking := false
    originalVolume := 0
    videoVolume := some 1
    wakeWordTimeoutMs := none }

/-- Witness for the amended C6 at the two concrete states. -/
theorem duckAudio_idempotent_witness :
    (duckedState.isDucking = true ∧ duckAudio true duckedState = duckedState) ∧
    (unduckedState.isDucking = false ∧ duckAudio false unduckedState = unduckedState) ∧
    (duckAudio true (duckAudio true unduckedState) = duckAudio true unduckedState ∧
     (duckAudio true (duckAudio true unduckedState)).originalVolume = 1) :=
  ⟨⟨rfl, (duckAudio_idempotent duckedState 0).1 rfl⟩,
   ⟨rfl, (duckAudio_idempotent unduckedState 0).2.1 rfl⟩,
   (duckAudio_idempotent unduckedState 1).2.2 rfl rfl⟩

/-- C5: entering the command window (wake word heard, verification passed,
no same-utterance command) starts a 4000 ms timer whose handler
(`resetWakeWord`) clears the wake-word flag, restores the pre-ducking
playback volume and cancels the timer. -/
theorem commandWindow_timeout_resets (s : ControlState) (transcript : String)
    (captured : Option VoiceFeatures) (v : ℝ)
    (hWake : strIncludes transcript "youtube" = true)
    (hNoCmd : jsTrim (jsReplaceEmpty transcript "youtube") = "")
    (hVer : wakeVerificationPasses s captured = true)
    (hDuck : s.isDucking = false)
    (hVid : s.videoVolume = some v) :
    (processWakeWord s transcript captured).2 = WakeOutcome.commandWindowOpened ∧
    (processWakeWord s transcript captured).1.wakeWordTimeoutMs = some 4000 ∧
    (fireWakeWordTimeout (processWakeWord s transcript captured).1).wakeWordDetected
      = false ∧
    (fireWakeWordTimeout (processWakeWord s transcript captured).1).isDucking = false ∧
    (fireWakeWordTimeout (processWakeWord s transcript captured).1).videoVolume = some v ∧
    (fireWakeWordTimeout (processWakeWord s transcript captured).1).wakeWordTimeoutMs
      = none := by
  have hd1 : duckAudio true { s with wakeWordDetected := true } =
      { s with
        wakeWordDetected := true
        originalVolume := v
        videoVolume := some duckingVolume
        isDucking := true } := by
    rw [duckAudio_enable_ducks { s with wakeWordDetected := true } v hDuck hVid]
  have hp : processWakeWord s transcript captured =
      ({ s with
          wakeWordDetected := true
          originalVolume := v
          videoVolume := some duckingVolume
          isDucking := true
          wakeWordTimeoutMs := some wakeWordWindow },
        WakeOutcome.commandWindowOpened) := by
    unfold processWakeWord
    rw [hWake, hVer]
    simp [hNoCmd, hd1]
  rw [hp]
  refine ⟨rfl, rfl, ?_⟩
  have hfire : fireWakeWordTimeout
      { s with
        wakeWordDetected := true
        originalVolume := v
        videoVolume := some duckingVolume
        isDucking := true
        wakeWordTimeoutMs := some wakeWordWindow } =
      { s with
        wakeWordDetected := false
        originalVolume := v
        videoVolume := some v
        isDucking := false
        wakeWordTimeoutMs := none } := by
    unfold fireWakeWordTimeout resetWakeWord duckAudio
    simp
  rw [hfire]
  exact ⟨rfl, rfl, rfl, rfl⟩

/-- Idle listening state (no voiceprint, video at volume 1) used as the C5
witness input. -/
noncomputable def idleState : ControlState :=
  { voiceprint := none
    wakeWordDetected := false
    isDucking := false
    originalVolume := 0
    videoVolume := some 1
    wakeWordTimeoutMs := none }

/-- Witness for C5: the bare utterance "youtube" at the idle state. -/
theorem commandWindow_timeout_resets_witness :
    (strIncludes "youtube" "youtube" = true ∧
     jsTrim (jsReplaceEmpty "youtube" "youtube") = "" ∧
     wakeVerificationPasses idleState none = true ∧
     idleState.isDucking = false ∧ idleState.videoVolume = some 1) ∧
    ((processWakeWord idleState "youtube" none).2 = WakeOutcome.commandWindowOpened ∧
     (processWakeWord idleState "youtube" none).1.wakeWordTimeoutMs = some 4000 ∧
     (fireWakeWordTimeout (processWakeWord idleState "youtube" none).1).wakeWordDetected
       = false ∧
     (fireWakeWordTimeout (processWakeWord idleState "youtube" none).1).isDucking
       = false ∧
     (fireWakeWordTimeout (processWakeWord idleState "youtube" none).1).videoVolume
       = some 1 ∧
     (fireWakeWordTimeout (processWakeWord idleState "youtube" none).1).wakeWordTimeoutMs
       = none) :=
  ⟨⟨by decide, by decide, rfl, rfl, rfl⟩,
   commandWindow_timeout_resets idleState "youtube" none 1 (by decide) (by decide)
     rfl rfl rfl⟩

/-- Mid-listening enrollment state: phrase 0 being recorded, the countdown
interval, 5 s session timeout and 8 s processing timeout pending
(the state right after `startEnrollmentListening`'s `onstart` ran). -/
def listeningState : EnrollmentState :=
  { enrollmentMode := true
    isActive := false
    recognitionActive := true
    hasGotResult := false
    enrollmentPhraseMatched := false
    currentEnrollmentPhrase := 0
    currentSampleCount := 0
    samplesPerPhrase := 1
    enrollmentSamples := 0
    trainingPanel := true
    pending := [ETimer.countdownInterval, ETimer.sessionTimeout, ETimer.processingTimeout] }

set_option maxRecDepth 8192 in
/-- C3 (the code violates the claim): `cancelTraining` clears only the
countdown interval.  Cancelling in mid-listening leaves the 5 s session
timeout and the 8 s processing timeout pending; and after a rejected
attempt (spoken "youtube zzzzz" against "YouTube pause", which passes the
word-count gate and fails the similarity test) the scheduled 1.2 s retry
survives cancellation, still fires, and schedules the next
`startEnrollmentListening` even though `enrollmentMode` is already false. -/
theorem cancelTraining_stale_timer :
    (ETimer.sessionTimeout ∈ (cancelTraining listeningState).pending ∧
     ETimer.processingTimeout ∈ (cancelTraining listeningState).pending ∧
     ETimer.countdownInterval ∉ (cancelTraining listeningState).pending) ∧
    ((enrollmentOnResult listeningState "youtube zzzzz").pending
        = [ETimer.continueAfter 1200] ∧
     (enrollmentOnResult listeningState "youtube zzzzz").enrollmentPhraseMatched = false ∧
     ETimer.continueAfter 1200 ∈
       (cancelTraining (enrollmentOnResult listeningState "youtube zzzzz")).pending ∧
     (cancelTraining (enrollmentOnResult listeningState "youtube zzzzz")).enrollmentMode
       = false ∧
     ETimer.startListening 1500 ∈
       (fireTimer (cancelTraining (enrollmentOnResult listeningState "youtube zzzzz"))
         (ETimer.continueAfter 1200)).pending) := by
  have hgate : enrollmentGate listeningState "youtube zzzzz" := by decide
  have hrej : ¬ ((if (jsWords (jsToLower
        (enrollmentPhrases.getD listeningState.currentEnrollmentPhrase ""))).length
          ≤ 3 then (0.8 : ℚ) else 0.7) ≤
      calculatePhraseSimilarity (jsToLower (jsTrim "youtube zzzzz"))
        (jsToLower (enrollmentPhrases.getD listeningState.currentEnrollmentPhrase ""))) := by
    rw [if_pos (by decide : (jsWords (jsToLower
      (enrollmentPhrases.getD listeningState.currentEnrollmentPhrase ""))).length ≤ 3)]
    unfold calculatePhraseSimilarity calculateCER
    rw [show jsTrim (jsToLower (jsToLower (jsTrim "youtube zzzzz"))) = "youtube zzzzz"
        from by decide,
      show jsTrim (jsToLower (jsToLower
          (enrollmentPhrases.getD listeningState.currentEnrollmentPhrase "")))
        = "youtube pause" from by decide,
      show levenshteinDistance "youtube zzzzz".data "youtube pause".data = 5 from by decide,
      show "youtube pause".length = 13 from by decide]
    norm_num [min_def, max_def]
  have heq : enrollmentOnResult listeningState "youtube zzzzz" =
      { listeningState with
        pending := [ETimer.continueAfter 1200]
        hasGotResult := true
        recognitionActive := false
        enrollmentPhraseMatched := false } := by
    simp only [enrollmentOnResult]
    rw [if_pos hgate, if_neg hrej]
    decide
  rw [heq]
  decide

/-- CER formula exactly as claim C4 words it:
`LevenshteinDistance(spoken, expected) / max(length(expected), 1)`, capped
at 1. -/
def claimCER (spoken expected : String) : ℚ :=
  min ((levenshteinDistance spoken.data expected.data : ℚ) / max ((expected.length : ℚ)) 1) 1

/-- Similarity `1 − CER` of claim C4. -/
def claimSimilarity (spoken expected : String) : ℚ :=
  1 - claimCER spoken expected

/-- Acceptance threshold of claim C4: 0.8 when the expected phrase has at
most 3 words, 0.7 otherwise. -/
def claimThreshold (expected : String) : ℚ :=
  if (jsWords expected).length ≤ 3 then 0.8 else 0.7

/-- C4: past the word-count/length gate, the hypothesis is accepted exactly
when `1 − CER(spoken, expected) ≥ 0.8/0.7` (threshold by expected word
count); on acceptance exactly one enrollment sample is captured and the
recognition session is stopped, on rejection the sample count is unchanged.
The `spoken`/`expected` arguments carry the source's lower-case/trim
normalisation (idempotent on the actual transcript/phrase data). -/
theorem enrollment_acceptance_iff (s : EnrollmentState) (raw : String)
    (hGate : enrollmentGate s raw) :
    ((claimThreshold (jsToLower (enrollmentPhrases.getD s.currentEnrollmentPhrase "")) ≤
        claimSimilarity (jsTrim (jsToLower (jsToLower (jsTrim raw))))
          (jsTrim (jsToLower (jsToLower
            (enrollmentPhrases.getD s.currentEnrollmentPhrase ""))))) ↔
      (enrollmentOnResult s raw).enrollmentPhraseMatched = true) ∧
    ((enrollmentOnResult s raw).enrollmentPhraseMatched = true →
      (enrollmentOnResult s raw).enrollmentSamples = s.enrollmentSamples + 1 ∧
      (enrollmentOnResult s raw).recognitionActive = false ∧
      ETimer.advanceAfter 800 ∈ (enrollmentOnResult s raw).pending) ∧
    ((enrollmentOnResult s raw).enrollmentPhraseMatched = false →
      (enrollmentOnResult s raw).enrollmentSamples = s.enrollmentSamples) := by
  by_cases hacc :
      (if (jsWords (jsToLower (enrollmentPhrases.getD s.currentEnrollmentPhrase ""))).length
          ≤ 3 then (0.8 : ℚ) else 0.7) ≤
        calculatePhraseSimilarity (jsToLower (jsTrim raw))
          (jsToLower (enrollmentPhrases.getD s.currentEnrollmentPhrase ""))
  · have hbridge :
        (claimThreshold (jsToLower (enrollmentPhrases.getD s.currentEnrollmentPhrase "")) ≤
          claimSimilarity (jsTrim (jsToLower (jsToLower (jsTrim raw))))
            (jsTrim (jsToLower (jsToLower
              (enrollmentPhrases.getD s.currentEnrollmentPhrase "")))))
          ↔ _ := Iff.rfl
    have h1 : (enrollmentOnResult s raw).enrollmentPhraseMatched = true := by
      simp only [enrollmentOnResult]
      rw [if_pos hGate, if_pos hacc]
    have h2 : (enrollmentOnResult s raw).enrollmentSamples = s.enrollmentSamples + 1 := by
      simp only [enrollmentOnResult]
      rw [if_pos hGate, if_pos hacc]
    have h3 : (enrollmentOnResult s raw).recognitionActive = false := by
      simp only [enrollmentOnResult]
      rw [if_pos hGate, if_pos hacc]
    have h4 : ETimer.advanceAfter 800 ∈ (enrollmentOnResult s raw).pending := by
      simp only [enrollmentOnResult]
      rw [if_pos hGate, if_pos hacc]
      simp
    exact ⟨iff_of_true hacc h1, fun _ => ⟨h2, h3, h4⟩, fun hb => absurd h1 (by simp [hb])⟩
  · have h1 : (enrollmentOnResult s raw).enrollmentPhraseMatched = false := by
      simp only [enrollmentOnResult]
      rw [if_pos hGate, if_neg hacc]
    have h2 : (enrollmentOnResult s raw).enrollmentSamples = s.enrollmentSamples := by
      simp only [enrollmentOnResult]
      rw [if_pos hGate, if_neg hacc]
    exact ⟨iff_of_false hacc (by simp [h1]), fun hb => absurd h1 (by simp [hb]),
      fun _ => h2⟩

/-- Enrollment state awaiting phrase 1 ("YouTube play"), used as the C4
witness input. -/
def enrollReadyState : EnrollmentState :=
  { enrollmentMode := true
    isActive := false
    recognitionActive := true
    hasGotResult := false
    enrollmentPhraseMatched := false
    currentEnrollmentPhrase := 1
    currentSampleCount := 0
    samplesPerPhrase := 1
    enrollmentSamples := 1
    trainingPanel := true
    pending := [ETimer.countdownInterval, ETimer.sessionTimeout, ETimer.processingTimeout] }

/-- Witness for C4: the exact utterance "youtube play" against phrase 1. -/
theorem enrollment_acceptance_iff_witness :
    enrollmentGate enrollReadyState "youtube play" ∧
    (((claimThreshold (jsToLower (enrollmentPhrases.getD
          enrollReadyState.currentEnrollmentPhrase "")) ≤
        claimSimilarity (jsTrim (jsToLower (jsToLower (jsTrim "youtube play"))))
          (jsTrim (jsToLower (jsToLower
            (enrollmentPhrases.getD enrollReadyState.currentEnrollmentPhrase ""))))) ↔
      (enrollmentOnResult enrollReadyState "youtube play").enrollmentPhraseMatched
        = true) ∧
    ((enrollmentOnResult enrollReadyState "youtube play").enrollmentPhraseMatched = true →
      (enrollmentOnResult enrollReadyState "youtube play").enrollmentSamples
        = enrollReadyState.enrollmentSamples + 1 ∧
      (enrollmentOnResult enrollReadyState "youtube play").recognitionActive = false ∧
      ETimer.advanceAfter 800 ∈ (enrollmentOnResult enrollReadyState "youtube play").pending) ∧
    ((enrollmentOnResult enrollReadyState "youtube play").enrollmentPhraseMatched = false →
      (enrollmentOnResult enrollReadyState "youtube play").enrollmentSamples
        = enrollReadyState.enrollmentSamples)) :=
  ⟨by decide, enrollment_acceptance_iff enrollReadyState "youtube play" (by decide)⟩

lemma foldl_mul_eq_prod (l : List ℕ) (f : ℕ → ℝ) (a : ℝ) :
    l.foldl (fun acc m => acc * f m) a = a * (l.map f).prod := by
  induction l generalizing a with
  | nil => simp
  | cons x t ih =>
    simp only [List.foldl_cons, List.map_cons, List.prod_cons, ih]
    ring

lemma foldl_add_eq_sum (l : List ℕ) (f : ℕ → ℝ) (a : ℝ) :
    l.foldl (fun acc m => acc + f m) a = a + (l.map f).sum := by
  induction l generalizing a with
  | nil => simp
  | cons x t ih =>
    simp only [List.foldl_cons, List.map_cons, List.sum_cons, ih]
    ring

lemma prod_map_cast_nonneg (l : List ℕ) : 0 ≤ (l.map (fun m => ((m : ℕ) : ℝ))).prod := by
  induction l with
  | nil => simp
  | cons x t ih =>
    simpa [List.map_cons, List.prod_cons] using mul_nonneg (Nat.cast_nonneg x) ih

lemma prod_map_rpow (l : List ℕ) (e : ℝ) :
    (l.map (fun m => ((m : ℕ) : ℝ) ^ e)).prod
      = ((l.map (fun m => ((m : ℕ) : ℝ))).prod) ^ e := by
  induction l with
  | nil => simp [Real.one_rpow]
  | cons x t ih =>
    simp only [List.map_cons, List.prod_cons, ih]
    rw [Real.mul_rpow (Nat.cast_nonneg x) (prod_map_cast_nonneg t)]

/-- Spectral flatness exactly as claim C8 words it: the geometric mean of the
frame's nonzero magnitudes divided by their arithmetic mean, bins with zero
magnitude contributing to neither. -/
noncomputable def specSpectralFlatness (frequencyData : List ℕ) : ℝ :=
  let nz := frequencyData.filter (fun m => decide (0 < m))
  if 0 < nz.length then
    (((nz.map (fun m => ((m : ℕ) : ℝ))).prod) ^ ((1 : ℝ) / nz.length)) /
      (((nz.map (fun m => ((m : ℕ) : ℝ))).sum) / nz.length)
  else 0

/-- C8 (amended): the extracted spectral flatness is the product of
`magnitude^(1/N)` over the nonzero magnitudes at indices 1..N-1 (N the full
array length) divided by their arithmetic mean — i.e. the geometric mean is
taken with exponent `1/N`, not `1/count`, and bin 0 never contributes. -/
theorem spectralFlatness_closed_form (frequencyData : List ℕ) :
    calculateSpectralFlatness frequencyData =
      (if 0 < ((frequencyData.drop 1).filter (fun m => decide (0 < m))).length then
        ((((frequencyData.drop 1).filter (fun m => decide (0 < m))).map
            (fun m => ((m : ℕ) : ℝ))).prod ^ ((1 : ℝ) / frequencyData.length)) /
          ((((frequencyData.drop 1).filter (fun m => decide (0 < m))).map
              (fun m => ((m : ℕ) : ℝ))).sum /
            ((frequencyData.drop 1).filter (fun m => decide (0 < m))).length)
      else 0) := by
  simp only [calculateSpectralFlatness]
  rw [foldl_mul_eq_prod _ (fun m => ((m : ℕ) : ℝ) ^ ((1 : ℝ) / frequencyData.length)),
    foldl_add_eq_sum _ (fun m => ((m : ℕ) : ℝ)), prod_map_rpow]
  simp only [one_mul, zero_add]

/-- Counterexample to C8 as stated: on the frame `[0, 4]` the code computes
`4^(1/2) / 4 = 1/2` (exponent `1/N` with `N = 2`), while the geometric mean
of the nonzero magnitudes divided by their arithmetic mean is `4 / 4 = 1`. -/
theorem spectralFlatness_counterexample :
    calculateSpectralFlatness [0, 4] = 1 / 2 ∧
    specSpectralFlatness [0, 4] = 1 ∧
    (1 / 2 : ℝ) ≠ 1 := by
  have h42 : (4 : ℝ) ^ ((1 : ℝ) / 2) = 2 := by
    rw [show (4 : ℝ) = 2 ^ (2 : ℕ) by norm_num, ← Real.rpow_natCast 2 2,
      ← Real.rpow_mul (by norm_num : (0 : ℝ) ≤ 2),
      show ((2 : ℕ) : ℝ) * ((1 : ℝ) / 2) = 1 by norm_num, Real.rpow_one]
  refine ⟨?_, ?_, by norm_num⟩
  · unfold calculateSpectralFlatness
    norm_num [h42]
  · unfold specSpectralFlatness
    norm_num [Real.rpow_one]

/-- C9 (amended): feature extraction is a pure function of the captured
frame — two extractions from the same frequency array, time-domain array
and sample rate agree on every acoustic field; the `transcript` and
`timestamp` fields merely copy the call's transcript argument and
`Date.now()` value. -/
theorem captureVoiceFeatures_deterministic (sampleRate : ℝ)
    (frequencyData timeDomainData : List ℕ) (tr1 tr2 : String) (t1 t2 : ℕ) :
    captureVoiceFeatures sampleRate frequencyData timeDomainData tr1 t1 =
      { captureVoiceFeatures sampleRate frequencyData timeDomainData tr2 t2 with
        transcript := tr1
        timestamp := t1 } :=
  rfl

/-- Counterexample to C9 as stated: the feature vector contains the
`Date.now()` timestamp, so two extractions from the same frame at different
times are not equal. -/
theorem captureVoiceFeatures_counterexample :
    captureVoiceFeatures 16000 [1, 2] [1, 2] "x" 0 ≠
      captureVoiceFeatures 16000 [1, 2] [1, 2] "x" 1 := by
  intro h
  have ht := congrArg VoiceFeatures.timestamp h
  simp [captureVoiceFeatures] at ht

end YTVoice
